import Mathlib

/-!
Shallow embedding of `src/main.py` (timeapp-api): a FastAPI backend with a
time endpoint, registration/login backed by PostgreSQL, and a visit counter
backed by Redis with PostgreSQL and in-process fallbacks.

Module-level mutable globals (`pg`, `r`, `memory_counters`, the captured
`PG_DSN`) are modelled as fields of an explicit state record `St`; each
HTTP handler becomes a function `St → outcome × St`.  External libraries
(bcrypt, jwt, redis, psycopg2, datetime) are modelled abstractly but
faithfully to their documented contracts, as noted at each definition.
Python exceptions propagating out of a handler are modelled with `Except`:
`Exn.http` is a raised `fastapi.HTTPException`, `Exn.uncaught` is any other
exception escaping the handler (surfaced by the framework as a generic
server error).  Whether a live driver call would fault is modelled by the
fault-injection fields `pgOpFault` / `redisOpFault` of the state.
-/

/-- Python substring test `sub in hay` on lists of characters. -/
def listContains (hay sub : List Char) : Bool :=
  match hay with
  | [] => sub.isEmpty
  | _ :: t => sub.isPrefixOf hay || listContains t sub

/-- Python substring test `sub in s` on strings. -/
def strContains (s sub : String) : Bool :=
  listContains s.toList sub.toList

/-- Model of Python `str.lower` and SQL `LOWER()` (character-wise
lowercasing; the claims' inputs are ASCII, where all three agree). -/
def strLower (s : String) : String :=
  String.mk (s.toList.map Char.toLower)

/-- Drop leading whitespace characters from a character list. -/
def dropLeadingWs (l : List Char) : List Char :=
  match l with
  | [] => []
  | c :: t => if c.isWhitespace then dropLeadingWs t else c :: t

/-- Model of Python `str.strip()`: remove leading and trailing
whitespace. -/
def pyStrip (s : String) : String :=
  String.mk (dropLeadingWs (dropLeadingWs s.toList).reverse).reverse

/-- Python truthiness of an optional string (`None` and `""` are falsy). -/
def optTruthy (o : Option String) : Bool :=
  match o with
  | none => false
  | some s => !s.isEmpty

/-- Lines 21-22 of `src/main.py`: if the DSN mentions
`postgres.database.azure.com` and has no `sslmode=` parameter, strip
surrounding whitespace and append ` sslmode=require`; otherwise leave the
DSN unchanged.  (`str.strip` is modelled by `pyStrip`.) -/
def normalize_pg_dsn (d : String) : String :=
  if strContains d "postgres.database.azure.com" && !strContains d "sslmode=" then
    pyStrip d ++ " sslmode=require"
  else
    d

/-- Model of a bcrypt hash: the stored string encodes the salt and the
derived digest.  The digest field stands for the key-derivation output,
treated as injective in the password (hash collisions are ignored). -/
structure BcryptHash where
  salt : String
  digest : String
deriving DecidableEq

/-- Model of `bcrypt.hashpw(pw, salt)`. -/
def bcrypt_hashpw (pw salt : String) : BcryptHash :=
  { salt := salt, digest := pw }

/-- Model of `bcrypt.checkpw(pw, h)`: re-derive with the hash's salt and
compare (bcrypt compares in constant time; timing is not modelled). -/
def bcrypt_checkpw (pw : String) (h : BcryptHash) : Bool :=
  decide (bcrypt_hashpw pw h.salt = h)

/-- Model of `jwt.encode({"uid": uid}, secret, algorithm="HS256")`. -/
def jwt_encode (uid : Nat) (secret : String) : String :=
  "HS256:" ++ toString uid ++ ":" ++ secret

/-- A row of the `users` table (`created_at` is irrelevant to the claims
and omitted).  Emails are stored as inserted, i.e. already lowercased by
`LOWER(%s)` at line 128. -/
structure UserRow where
  id : Nat
  email : String
  password_hash : BcryptHash
deriving DecidableEq

/-- The singleton `site_counters` row (`id = 1`). -/
structure CounterRow where
  total : Nat
  updated_at : Nat
deriving DecidableEq

/-- Contents of the relational store: the `users` table (with the SERIAL
id sequence) and the optional `site_counters` singleton row. -/
structure PgData where
  users : List UserRow
  nextId : Nat
  siteCounter : Option CounterRow
deriving DecidableEq

/-- Process state: the module-level globals of `src/main.py`, the current
contents of the two external stores, their reachability, fault injection
for live driver calls, and the wall clock. -/
structure St where
  /-- Current value of the environment variable `PG_DSN` (mutable after
  startup; the program reads it only once, at module load). -/
  envPgDsn : Option String
  /-- Current value of the environment variable `REDIS_URL`. -/
  envRedisUrl : Option String
  /-- Module-level `PG_DSN` after the line 21-22 normalization, captured
  at startup. -/
  dsn : Option String
  /-- Module-level `REDIS_URL` captured at startup. -/
  redisUrl : Option String
  /-- Module-level `JWT_SECRET` captured at startup. -/
  jwtSecret : String
  /-- Module-level `SECURE_COOKIES` captured at startup. -/
  secureCookies : Bool
  /-- Whether the global `pg` holds a connection (truthy). -/
  pgAvail : Bool
  /-- Whether the global `r` holds a connection (truthy). -/
  redisAvail : Bool
  /-- Whether a PostgreSQL connect attempt would succeed right now. -/
  pgReachable : Bool
  /-- Whether a Redis connect-and-ping would succeed right now. -/
  redisReachable : Bool
  /-- Contents of the relational store. -/
  db : PgData
  /-- Value at cache key `visits:total` (`none` = key absent). -/
  cache : Option Nat
  /-- The in-process counter memory_counters at key visits_total. -/
  mem : Nat
  /-- Wall clock, used for `now()` timestamps. -/
  now : Nat
  /-- Fault injection: an operation on the live `pg` handle raises. -/
  pgOpFault : Bool
  /-- Fault injection: an operation on the live `r` handle raises. -/
  redisOpFault : Bool
  /-- Ghost instrumentation: number of invocations of `try_connect_pg`. -/
  pgConnectAttempts : Nat
deriving DecidableEq

/-- Exceptions escaping a handler: a raised `fastapi.HTTPException`, or
any other exception (surfaced by the framework as a generic server
error). -/
inductive Exn where
  | http (status : Nat) (detail : String)
  | uncaught (msg : String)
deriving DecidableEq

deriving instance DecidableEq for Except

/-- Function try_connect_pg (lines 32-63): bail out if the captured `PG_DSN` is
falsy; otherwise connect, ensure the two tables exist and insert the
`site_counters` row `(1, 0)` if absent, setting the global `pg`; on any
failure log and set `pg = None`.  The ghost attempt counter is bumped on
every invocation. -/
def try_connect_pg (st : St) : St :=
  let st1 := { st with pgConnectAttempts := st.pgConnectAttempts + 1 }
  if !optTruthy st1.dsn then
    st1
  else if st1.pgReachable then
    { st1 with
      pgAvail := true
      db := { st1.db with
              siteCounter := some (st1.db.siteCounter.getD ⟨0, st1.now⟩) } }
  else
    { st1 with pgAvail := false }

/-- Function try_connect_redis (lines 66-79): bail out if the captured
`REDIS_URL` is falsy; otherwise connect and ping, setting the global `r`;
on failure log and set `r = None`. -/
def try_connect_redis (st : St) : St :=
  if !optTruthy st.redisUrl then
    st
  else if st.redisReachable then
    { st with redisAvail := true }
  else
    { st with redisAvail := false }

/-- Module load (lines 15-29 and 82-83): read the configuration from the
environment once, normalize `PG_DSN`, initialize the globals, and attempt
both connections.  (When `PG_DSN` is the empty string the line 21 guard
`if PG_DSN and ...` is falsy, and `normalize_pg_dsn` also leaves `""`
unchanged, so mapping the normalization over the option is faithful.) -/
def startup (envPg envRedis envSecret envSecure : Option String)
    (pgReach redisReach : Bool) (db : PgData) (cache : Option Nat)
    (now : Nat) : St :=
  try_connect_redis (try_connect_pg {
    envPgDsn := envPg
    envRedisUrl := envRedis
    dsn := envPg.map normalize_pg_dsn
    redisUrl := envRedis
    jwtSecret := envSecret.getD "change_me"
    secureCookies := strLower (envSecure.getD "false") == "true"
    pgAvail := false
    redisAvail := false
    pgReachable := pgReach
    redisReachable := redisReach
    db := db
    cache := cache
    mem := 0
    now := now
    pgOpFault := false
    redisOpFault := false
    pgConnectAttempts := 0 })

/-- Response of `/healthz`. -/
structure HealthResp where
  ok : Bool
  pg : Bool
  redis : Bool
deriving DecidableEq

/-- Handler healthz (lines 95-97): report truthiness of the two globals. -/
def healthz (st : St) : HealthResp × St :=
  ({ ok := true, pg := st.pgAvail, redis := st.redisAvail }, st)

/-- One entry of the `/time/now` response. -/
structure TimeEntry where
  label : String
  tz : String
  iso : String
deriving DecidableEq

/-- Response of `/time/now`. -/
structure TimeResp where
  times : List TimeEntry
deriving DecidableEq

/-- Zero-padded two-digit rendering of a number below 100. -/
def pad2 (n : Nat) : String :=
  if n < 10 then "0" ++ toString n else toString n

/-- UTC-offset suffix `+HH:MM` / `-HH:MM` for an offset in minutes, as
rendered by `datetime.isoformat()` for an aware datetime. -/
def offsetSuffix (offsetMin : Int) : String :=
  (if offsetMin < 0 then "-" else "+")
    ++ pad2 (offsetMin.natAbs / 60) ++ ":" ++ pad2 (offsetMin.natAbs % 60)

/-- Model of `datetime.now(ZoneInfo(tz)).isoformat()`: an aware datetime's
ISO rendering is its local civil date-time part followed by the UTC-offset
suffix.  The local part and the zone's offset are abstract inputs. -/
def isoformat (localPart : String) (offsetMin : Int) : String :=
  localPart ++ offsetSuffix offsetMin

/-- The hardcoded city list of `time_now` (lines 102-107). -/
def cities : List (String × String) :=
  [("New York", "America/New_York"),
   ("Beijing", "Asia/Shanghai"),
   ("Sydney", "Australia/Sydney"),
   ("Delhi", "Asia/Kolkata")]

/-- Handler time_now (lines 100-111), parameterized by the wall clock: `local`
gives the current local civil date-time rendering in a zone and `offset`
the zone's current UTC offset in minutes. -/
def time_now (loc : String → String) (offset : String → Int) : TimeResp :=
  { times := cities.map fun c =>
      { label := c.1, tz := c.2, iso := isoformat (loc c.2) (offset c.2) } }

/-- Function require_pg (lines 114-119): if the global `pg` is falsy, attempt a
reconnect; if it is still falsy, raise `HTTPException(503)`. -/
def require_pg (st : St) : Except Exn Unit × St :=
  let st1 := if !st.pgAvail then try_connect_pg st else st
  if st1.pgAvail then
    (Except.ok (), st1)
  else
    (Except.error (Exn.http 503 "PostgreSQL is not configured/available."), st1)

/-- Response of `/auth/register` and `/metrics/visit`. -/
structure OkResp where
  ok : Bool
deriving DecidableEq

/-- The cookie set by `response.set_cookie` at line 146. -/
structure Cookie where
  name : String
  value : String
  httponly : Bool
  samesite : String
  secure : Bool
deriving DecidableEq

/-- Response of `/auth/login`: the JSON body plus the optional
`Set-Cookie` side effect. -/
structure LoginResp where
  ok : Bool
  cookie : Option Cookie
deriving DecidableEq

/-- Handler register (lines 122-132): `require_pg`, hash the password with a
fresh salt (the salt drawn by `bcrypt.gensalt()` is an explicit input),
then `INSERT INTO users(email,password_hash) VALUES(LOWER(%s), %s)` and
commit.  A violation of the UNIQUE constraint on `email` raises out of
the handler uncaught; a fault of the live handle likewise. -/
def registerBody (st1 : St) (email pw salt : String) : Except Exn OkResp × St :=
  if st1.pgOpFault then
    (Except.error (Exn.uncaught "pg execute failed"), st1)
  else
    let hash := bcrypt_hashpw pw salt
    let eLower := strLower email
    if st1.db.users.any fun u => u.email == eLower then
      (Except.error (Exn.uncaught "duplicate key value violates unique constraint"), st1)
    else
      (Except.ok { ok := true },
       { st1 with db := { st1.db with
           users := st1.db.users ++ [{ id := st1.db.nextId, email := eLower,
                                       password_hash := hash }]
           nextId := st1.db.nextId + 1 } })

/-- Handler register, boundary part: `require_pg` raising short-circuits
the handler; otherwise the body runs on the state `require_pg` left. -/
def register (st : St) (email pw salt : String) : Except Exn OkResp × St :=
  let st1 := (require_pg st).2
  match (require_pg st).1 with
  | Except.error e => (Except.error e, st1)
  | Except.ok _ => registerBody st1 email pw salt

/-- Handler login (lines 134-147): `require_pg`, `SELECT id, password_hash FROM
users WHERE email=LOWER(%s)`, return `{ok: false}` when no row or when
`bcrypt.checkpw` fails, else sign a JWT and set the `access_token`
cookie. -/
def loginBody (st1 : St) (email pw : String) : Except Exn LoginResp :=
  if st1.pgOpFault then
    Except.error (Exn.uncaught "pg execute failed")
  else
    match st1.db.users.find? fun u => u.email == strLower email with
    | none => Except.ok { ok := false, cookie := none }
    | some u =>
      if !bcrypt_checkpw pw u.password_hash then
        Except.ok { ok := false, cookie := none }
      else
        Except.ok { ok := true,
                    cookie := some { name := "access_token",
                                     value := jwt_encode u.id st1.jwtSecret,
                                     httponly := true,
                                     samesite := "Lax",
                                     secure := st1.secureCookies } }

/-- Handler login, boundary part: `require_pg` raising short-circuits the
handler; the body is read-only, so the final state is whatever
`require_pg` left. -/
def login (st : St) (email pw : String) : Except Exn LoginResp × St :=
  let st1 := (require_pg st).2
  match (require_pg st).1 with
  | Except.error e => (Except.error e, st1)
  | Except.ok _ => (loginBody st1 email pw, st1)

/-- The PostgreSQL half of `visit` (lines 157-160): if the global `pg` is
truthy, `UPDATE site_counters SET total=total+1, updated_at=now() WHERE
id=1` and commit (a no-op when the row is absent); a fault of the live
handle raises uncaught. -/
def visitPg (st : St) : Except Exn OkResp × St :=
  if st.pgAvail then
    if st.pgOpFault then
      (Except.error (Exn.uncaught "pg update failed"), st)
    else
      (Except.ok { ok := true },
       { st with db := { st.db with
           siteCounter := st.db.siteCounter.map fun c =>
             { total := c.total + 1, updated_at := st.now } } })
  else
    (Except.ok { ok := true }, st)

/-- Handler visit (lines 150-161): if the global `r` is truthy, `INCR
visits:total` (creates the key at 0 if absent), else bump the in-process
counter; then the PostgreSQL half. -/
def visit (st : St) : Except Exn OkResp × St :=
  if st.redisAvail then
    if st.redisOpFault then
      (Except.error (Exn.uncaught "redis incr failed"), st)
    else
      visitPg { st with cache := some (st.cache.getD 0 + 1) }
  else
    visitPg { st with mem := st.mem + 1 }

/-- Response of `/metrics/total`. -/
structure TotalResp where
  total : Nat
deriving DecidableEq

/-- The PostgreSQL-and-below half of `total` (lines 169-175): if the
global `pg` is truthy, `SELECT total FROM site_counters WHERE id=1`; use
the row if present, else fall through to the in-process counter. -/
def totalPg (st : St) : Except Exn TotalResp × St :=
  if st.pgAvail then
    if st.pgOpFault then
      (Except.error (Exn.uncaught "pg select failed"), st)
    else
      match st.db.siteCounter with
      | some c => (Except.ok { total := c.total }, st)
      | none => (Except.ok { total := st.mem }, st)
  else
    (Except.ok { total := st.mem }, st)

/-- Handler total (lines 163-175): if the global `r` is truthy, `GET
visits:total` and use it when the key is present; else fall through to
the store, then to the in-process counter. -/
def total (st : St) : Except Exn TotalResp × St :=
  if st.redisAvail then
    if st.redisOpFault then
      (Except.error (Exn.uncaught "redis get failed"), st)
    else
      match st.cache with
      | some v => (Except.ok { total := v }, st)
      | none => totalPg st
  else
    totalPg st

/-- Sample managed-cloud DSN without an sslmode parameter. -/
def dsnW : String := "h.postgres.database.azure.com db=x"

/-- A fully-populated state: both stores available, cache key present. -/
def stW2 : St :=
  { envPgDsn := some "host=h", envRedisUrl := some "redis://x",
    dsn := some "host=h", redisUrl := some "redis://x",
    jwtSecret := "s", secureCookies := false,
    pgAvail := true, redisAvail := true,
    pgReachable := true, redisReachable := true,
    db := { users := [], nextId := 1,
            siteCounter := some { total := 7, updated_at := 5 } },
    cache := some 9, mem := 3, now := 6,
    pgOpFault := false, redisOpFault := false, pgConnectAttempts := 1 }

/-- State in which the cache is available but its next operation faults. -/
def stF4 : St := { stW2 with redisOpFault := true }

/-- State in which the cache is unavailable and the store is available
but its next operation faults. -/
def stF4pg : St := { stW2 with redisAvail := false, pgOpFault := true }

/-- State in which the cache is available with the key absent and the
store is available but its next operation faults. -/
def stF4both : St := { stW2 with cache := none, pgOpFault := true }

/-- Empty relational store. -/
def dbEmpty : PgData := { users := [], nextId := 1, siteCounter := none }

/-- Process started with `PG_DSN` unset (both stores down). -/
def stC5a : St := startup none none none none true true dbEmpty none 0

/-- The same process after one failed auth call, with the environment
variable `PG_DSN` now set to a valid, reachable DSN. -/
def stC5b : St :=
  { (register stC5a "a@x.com" "p" "s").2 with
    envPgDsn := some "host=db.internal dbname=app" }

/-- Process started with a configured DSN while the store was down. -/
def stW5 : St := startup (some "host=h") none none none false true dbEmpty none 2

/-- The same process once the store has become reachable. -/
def stW5b : St := { stW5 with pgReachable := true }

/-- A stored user whose password is "pw" (hashed). -/
def uW : UserRow := { id := 1, email := "b@x.com", password_hash := bcrypt_hashpw "pw" "s" }

/-- Store state holding exactly the user `uW`. -/
def stW6 : St :=
  { stW2 with db := { users := [uW], nextId := 2,
                      siteCounter := some { total := 0, updated_at := 0 } } }

/-- Cookie side effect carried by a login outcome (none when the handler
raised). -/
def respCookie (res : Except Exn LoginResp) : Option Cookie :=
  match res with
  | Except.ok rsp => rsp.cookie
  | Except.error _ => none

/-- Body `ok` flag carried by a login outcome (false when the handler
raised). -/
def respOk (res : Except Exn LoginResp) : Bool :=
  match res with
  | Except.ok rsp => rsp.ok
  | Except.error _ => false

/-- Process started with a configured DSN while the store was down, then
with the store reachable again (before any successful reconnect). -/
def stC9 : St := startup (some "host=h dbname=d") none none none false true dbEmpty none 3

/-- State stC9 once the store has become reachable. -/
def stC9b : St := { stC9 with pgReachable := true }

/-! ## Helper lemmas and claim theorems -/

theorem isPrefixOfAppend (sub l b : List Char) (h : sub.isPrefixOf l = true) :
    sub.isPrefixOf (l ++ b) = true := by
  induction sub generalizing l with
  | nil => simp [List.isPrefixOf]
  | cons c cs ih =>
    cases l with
    | nil => simp [List.isPrefixOf] at h
    | cons x xs =>
      simp only [List.isPrefixOf, List.cons_append, Bool.and_eq_true] at h ⊢
      exact ⟨h.1, ih xs h.2⟩

theorem listContains_append_of_right (a b sub : List Char)
    (h : listContains b sub = true) : listContains (a ++ b) sub = true := by
  induction a with
  | nil => simpa using h
  | cons c t ih =>
    simp only [List.cons_append, listContains, Bool.or_eq_true]
    exact Or.inr ih

theorem listContains_append_of_left (a b sub : List Char)
    (h : listContains a sub = true) : listContains (a ++ b) sub = true := by
  induction a with
  | nil =>
    simp only [listContains, List.isEmpty_iff] at h
    subst h
    cases b <;> simp [listContains, List.isPrefixOf]
  | cons c t ih =>
    simp only [listContains, Bool.or_eq_true] at h
    simp only [List.cons_append, listContains, Bool.or_eq_true]
    rcases h with h | h
    · exact Or.inl (isPrefixOfAppend _ _ _ h)
    · exact Or.inr (ih h)

theorem strContains_append_right (s t sub : String)
    (h : strContains t sub = true) : strContains (s ++ t) sub = true := by
  unfold strContains at h ⊢
  have he : (s ++ t).toList = s.toList ++ t.toList := by
    simp [String.toList]
  rw [he]
  exact listContains_append_of_right _ _ _ h

theorem strContains_append_left (s t sub : String)
    (h : strContains s sub = true) : strContains (s ++ t) sub = true := by
  unfold strContains at h ⊢
  have he : (s ++ t).toList = s.toList ++ t.toList := by
    simp [String.toList]
  rw [he]
  exact listContains_append_of_left _ _ _ h

theorem offset_bearing (l : String) (m : Int) :
    (strContains (isoformat l m) "+" || strContains (isoformat l m) "-") = true := by
  by_cases hm : m < 0
  · have hs : strContains (isoformat l m) "-" = true := by
      unfold isoformat offsetSuffix
      rw [if_pos hm]
      exact strContains_append_right _ _ _
        (strContains_append_left _ _ _
          (strContains_append_left _ _ _
            (strContains_append_left _ _ _ (by decide))))
    simp [hs]
  · have hs : strContains (isoformat l m) "+" = true := by
      unfold isoformat offsetSuffix
      rw [if_neg hm]
      exact strContains_append_right _ _ _
        (strContains_append_left _ _ _
          (strContains_append_left _ _ _
            (strContains_append_left _ _ _ (by decide))))
    simp [hs]

/-- C10: the health endpoint is a pure read of the two availability
flags: it returns `{ok: true, pg: <store availability>, redis: <cache
availability>}`, leaves the state (in particular the ghost reconnect
counter) untouched, and its body is insensitive to whether the stores
have meanwhile become reachable — it never triggers the lazy
reconnect. -/
theorem healthz_reports_flags (st : St) (b1 b2 : Bool) :
    healthz st = ({ ok := true, pg := st.pgAvail, redis := st.redisAvail }, st) ∧
    (healthz { st with pgReachable := b1, redisReachable := b2 }).1 =
      { ok := true, pg := st.pgAvail, redis := st.redisAvail } ∧
    (healthz st).2.pgConnectAttempts = st.pgConnectAttempts :=
  ⟨rfl, rfl, rfl⟩

/-- C7: for every wall clock, the time endpoint returns exactly 4 entries
in the fixed order New York, Beijing, Sydney, Delhi, each carrying the
fixed (label, timezone-identifier) pair and the ISO rendering of the
current instant in that zone, which bears a UTC offset (`+`/`-`). -/
theorem time_now_four_fixed (loc : String → String) (off : String → Int) :
    (time_now loc off).times =
      [{ label := "New York", tz := "America/New_York",
         iso := isoformat (loc "America/New_York") (off "America/New_York") },
       { label := "Beijing", tz := "Asia/Shanghai",
         iso := isoformat (loc "Asia/Shanghai") (off "Asia/Shanghai") },
       { label := "Sydney", tz := "Australia/Sydney",
         iso := isoformat (loc "Australia/Sydney") (off "Australia/Sydney") },
       { label := "Delhi", tz := "Asia/Kolkata",
         iso := isoformat (loc "Asia/Kolkata") (off "Asia/Kolkata") }] ∧
    (time_now loc off).times.length = 4 ∧
    ((time_now loc off).times.all fun e =>
      strContains e.iso "+" || strContains e.iso "-") = true := by
  refine ⟨rfl, rfl, ?_⟩
  simp [time_now, cities, List.all, offset_bearing]

/-- C8: a configured connection string that mentions the managed-cloud
endpoint `postgres.database.azure.com` and lacks an `sslmode=` parameter
is trimmed and gets ` sslmode=require` appended (so the result carries a
transport-security parameter); any other string is used unchanged. -/
theorem pg_dsn_normalize_spec (d : String) :
    (strContains d "postgres.database.azure.com" = true →
     strContains d "sslmode=" = false →
       normalize_pg_dsn d = pyStrip d ++ " sslmode=require" ∧
       strContains (normalize_pg_dsn d) "sslmode=" = true) ∧
    (strContains d "postgres.database.azure.com" = false ∨
     strContains d "sslmode=" = true →
       normalize_pg_dsn d = d) := by
  constructor
  · intro h1 h2
    have he : normalize_pg_dsn d = pyStrip d ++ " sslmode=require" := by
      unfold normalize_pg_dsn
      simp [h1, h2]
    refine ⟨he, ?_⟩
    rw [he]
    refine strContains_append_right _ _ _ ?_
    decide
  · intro h
    unfold normalize_pg_dsn
    rcases h with h | h <;> simp [h]

/-- Witness for C8 at a concrete DSN. -/
theorem pg_dsn_normalize_spec_witness :
    strContains dsnW "postgres.database.azure.com" = true ∧
    strContains dsnW "sslmode=" = false ∧
    (normalize_pg_dsn dsnW = pyStrip dsnW ++ " sslmode=require" ∧
     strContains (normalize_pg_dsn dsnW) "sslmode=" = true) :=
  ⟨by decide, by decide, (pg_dsn_normalize_spec dsnW).1 (by decide) (by decide)⟩

/-- C2: with no fault pending, the total endpoint returns the first
available source's value: the cache's `visits:total` when the cache is
available and the key present, else the store's SiteCounter total when
the store is available and the row exists, else the in-process fallback
counter — with no aggregation, and no state change. -/
theorem total_first_available_wins (st : St)
    (hr : st.redisOpFault = false) (hp : st.pgOpFault = false) :
    total st =
      (Except.ok { total :=
          if st.redisAvail && st.cache.isSome then st.cache.getD 0
          else if st.pgAvail && st.db.siteCounter.isSome then
            (st.db.siteCounter.getD { total := 0, updated_at := 0 }).total
          else st.mem },
       st) := by
  unfold total totalPg
  cases hR : st.redisAvail <;> cases hC : st.cache <;>
    cases hP : st.pgAvail <;> cases hS : st.db.siteCounter <;>
      simp [hr, hp, hR, hC, hP, hS]

/-- Witness for C2 at a concrete state (cache wins with value 9). -/
theorem total_first_available_wins_witness :
    stW2.redisOpFault = false ∧ stW2.pgOpFault = false ∧
    total stW2 =
      (Except.ok { total :=
          if stW2.redisAvail && stW2.cache.isSome then stW2.cache.getD 0
          else if stW2.pgAvail && stW2.db.siteCounter.isSome then
            (stW2.db.siteCounter.getD { total := 0, updated_at := 0 }).total
          else stW2.mem },
       stW2) :=
  ⟨rfl, rfl, total_first_available_wins stW2 rfl rfl⟩

/-- C3: with no fault pending and the singleton row present whenever the
store is available, each visit increments exactly one of the cache key
(when the cache is available, creating it at 0 if absent) and the
in-process fallback counter, and independently increments the store's
SiteCounter total and refreshes its updated-at timestamp whenever the
store is available; users and availability flags are untouched. -/
theorem visit_increments (st : St) (c : CounterRow)
    (hr : st.redisOpFault = false) (hp : st.pgOpFault = false)
    (hc : st.pgAvail = true → st.db.siteCounter = some c) :
    (visit st).1 = Except.ok { ok := true } ∧
    (visit st).2.cache =
      (if st.redisAvail then some (st.cache.getD 0 + 1) else st.cache) ∧
    (visit st).2.mem = (if st.redisAvail then st.mem else st.mem + 1) ∧
    (visit st).2.db.siteCounter =
      (if st.pgAvail then some { total := c.total + 1, updated_at := st.now }
       else st.db.siteCounter) ∧
    (visit st).2.db.users = st.db.users ∧
    (visit st).2.redisAvail = st.redisAvail ∧
    (visit st).2.pgAvail = st.pgAvail := by
  unfold visit visitPg
  cases hR : st.redisAvail <;> cases hP : st.pgAvail <;>
    first
      | simp [hr, hp, hR, hP, hc hP]
      | simp [hr, hp, hR, hP]

/-- Witness for C3 at a concrete state: both stores available, so both
the cache key and the store total advance and the fallback is unchanged. -/
theorem visit_increments_witness :
    stW2.redisOpFault = false ∧ stW2.pgOpFault = false ∧
    (stW2.pgAvail = true → stW2.db.siteCounter = some { total := 7, updated_at := 5 }) ∧
    (visit stW2).1 = Except.ok { ok := true } ∧
    (visit stW2).2.cache =
      (if stW2.redisAvail then some (stW2.cache.getD 0 + 1) else stW2.cache) ∧
    (visit stW2).2.mem = (if stW2.redisAvail then stW2.mem else stW2.mem + 1) ∧
    (visit stW2).2.db.siteCounter =
      (if stW2.pgAvail then some { total := (7 : Nat) + 1, updated_at := stW2.now }
       else stW2.db.siteCounter) ∧
    (visit stW2).2.mem = stW2.mem := by
  have h := visit_increments stW2 { total := 7, updated_at := 5 } rfl rfl
    (fun _ => rfl)
  exact ⟨rfl, rfl, fun _ => rfl, h.1, h.2.1, h.2.2.1, h.2.2.2.1, by decide⟩

/-- C4 counterexample: at `stF4` (cache available, cache operation
faulting) and at `stF4pg` (cache unavailable, store available, store
operation faulting) the counter endpoints surface the exception to the
caller, no availability flag is downgraded, and the call does not degrade
to the next fallback — contradicting "caught, downgraded, silently
degrades, never surfaced". -/
theorem counter_fault_not_caught :
    stF4.redisAvail = true ∧
    (visit stF4).1 = Except.error (Exn.uncaught "redis incr failed") ∧
    (visit stF4).2 = stF4 ∧
    (visit stF4).2.redisAvail = true ∧
    (visit stF4).2.mem = stF4.mem ∧
    (total stF4).1 = Except.error (Exn.uncaught "redis get failed") ∧
    stF4pg.pgAvail = true ∧
    (visit stF4pg).1 = Except.error (Exn.uncaught "pg update failed") ∧
    (visit stF4pg).2.pgAvail = true ∧
    (visit stF4pg).2.db.siteCounter = stF4pg.db.siteCounter ∧
    (total stF4pg).1 = Except.error (Exn.uncaught "pg select failed") ∧
    (total stF4pg).2 = stF4pg :=
  ⟨rfl, rfl, rfl, rfl, rfl, rfl, rfl, rfl, rfl, rfl, rfl, rfl⟩

/-- C4 amended: a fault raised by a cache or store operation during a
counter endpoint call is NOT caught: it propagates uncaught to the
caller and the call does not degrade to the next fallback — a faulting
cache operation leaves the state unchanged, while a faulting store
operation in visit leaves the fallback-or-cache increment that already
landed; in every case neither endpoint ever changes an availability
flag, so the faulting dependency is not downgraded. -/
theorem counter_fault_uncaught (st : St) :
    (st.redisAvail = true → st.redisOpFault = true →
      visit st = (Except.error (Exn.uncaught "redis incr failed"), st) ∧
      total st = (Except.error (Exn.uncaught "redis get failed"), st)) ∧
    (st.redisAvail = false → st.pgAvail = true → st.pgOpFault = true →
      visit st = (Except.error (Exn.uncaught "pg update failed"),
        { st with mem := st.mem + 1 }) ∧
      total st = (Except.error (Exn.uncaught "pg select failed"), st)) ∧
    (st.redisAvail = true → st.redisOpFault = false → st.cache = none →
      st.pgAvail = true → st.pgOpFault = true →
      visit st = (Except.error (Exn.uncaught "pg update failed"),
        { st with cache := some (st.cache.getD 0 + 1) }) ∧
      total st = (Except.error (Exn.uncaught "pg select failed"), st)) ∧
    ((visit st).2.redisAvail = st.redisAvail ∧
     (visit st).2.pgAvail = st.pgAvail) ∧
    ((total st).2.redisAvail = st.redisAvail ∧
     (total st).2.pgAvail = st.pgAvail) := by
  refine ⟨?_, ?_, ?_, ?_, ?_⟩
  · intro h hf
    constructor <;> simp [visit, total, h, hf]
  · intro h hp hpf
    constructor <;> simp [visit, visitPg, total, totalPg, h, hp, hpf]
  · intro h hrf hc hp hpf
    constructor <;> simp [visit, visitPg, total, totalPg, h, hrf, hc, hp, hpf]
  · cases hR : st.redisAvail <;> cases hRf : st.redisOpFault <;>
      cases hP : st.pgAvail <;> cases hPf : st.pgOpFault <;>
        cases hS : st.db.siteCounter <;>
          simp [visit, visitPg, hR, hRf, hP, hPf, hS]
  · cases hR : st.redisAvail <;> cases hRf : st.redisOpFault <;>
      cases hP : st.pgAvail <;> cases hPf : st.pgOpFault <;>
        cases hC : st.cache <;> cases hS : st.db.siteCounter <;>
          simp [total, totalPg, hR, hRf, hP, hPf, hC, hS]

/-- Witness for C4's amended theorem at three concrete faulting states:
cache fault, store fault behind the memory fallback, and store fault
behind a successful cache increment. -/
theorem counter_fault_uncaught_witness :
    stF4.redisAvail = true ∧ stF4.redisOpFault = true ∧
    visit stF4 = (Except.error (Exn.uncaught "redis incr failed"), stF4) ∧
    total stF4 = (Except.error (Exn.uncaught "redis get failed"), stF4) ∧
    stF4pg.redisAvail = false ∧ stF4pg.pgAvail = true ∧
    stF4pg.pgOpFault = true ∧
    visit stF4pg = (Except.error (Exn.uncaught "pg update failed"),
      { stF4pg with mem := stF4pg.mem + 1 }) ∧
    total stF4pg = (Except.error (Exn.uncaught "pg select failed"), stF4pg) ∧
    stF4both.redisOpFault = false ∧ stF4both.cache = none ∧
    visit stF4both = (Except.error (Exn.uncaught "pg update failed"),
      { stF4both with cache := some (stF4both.cache.getD 0 + 1) }) ∧
    total stF4both = (Except.error (Exn.uncaught "pg select failed"), stF4both) :=
  ⟨rfl, rfl, ((counter_fault_uncaught stF4).1 rfl rfl).1,
   ((counter_fault_uncaught stF4).1 rfl rfl).2,
   rfl, rfl, rfl,
   ((counter_fault_uncaught stF4pg).2.1 rfl rfl rfl).1,
   ((counter_fault_uncaught stF4pg).2.1 rfl rfl rfl).2,
   rfl, rfl,
   ((counter_fault_uncaught stF4both).2.2.1 rfl rfl rfl rfl rfl).1,
   ((counter_fault_uncaught stF4both).2.2.1 rfl rfl rfl rfl rfl).2⟩

/-- C5 counterexample: starting with `PG_DSN` unset, a first auth call
fails with 503; switching the environment variable to a valid value for a
reachable server and calling again STILL fails with 503, because the
module-level DSN was captured at startup — contradicting the claim's
"PG_DSN switched from unset to a valid value between two calls" example. -/
theorem env_switch_does_not_reconnect :
    stC5a.envPgDsn = none ∧
    stC5b.envPgDsn = some "host=db.internal dbname=app" ∧
    stC5b.pgReachable = true ∧
    (register stC5a "a@x.com" "p" "s").1 =
      Except.error (Exn.http 503 "PostgreSQL is not configured/available.") ∧
    (register stC5b "a@x.com" "p" "s").1 =
      Except.error (Exn.http 503 "PostgreSQL is not configured/available.") :=
  ⟨rfl, rfl, rfl, rfl, rfl⟩

/-- C5 amended: an auth call with the store Unavailable makes exactly one
reconnect attempt; it succeeds exactly when the DSN captured at startup is
truthy and the store is reachable, and otherwise the call fails with 503;
the current environment value of `PG_DSN` is irrelevant to the outcome
(it is read only at module load). -/
theorem require_pg_lazy_reconnect (st : St) (h : st.pgAvail = false) :
    ((require_pg st).2.pgConnectAttempts = st.pgConnectAttempts + 1) ∧
    (optTruthy st.dsn = true → st.pgReachable = true →
      (require_pg st).1 = Except.ok () ∧ (require_pg st).2.pgAvail = true) ∧
    ((optTruthy st.dsn = false ∨ st.pgReachable = false) →
      ∀ e pw salt,
        register st e pw salt =
          (Except.error (Exn.http 503 "PostgreSQL is not configured/available."),
           try_connect_pg st) ∧
        login st e pw =
          (Except.error (Exn.http 503 "PostgreSQL is not configured/available."),
           try_connect_pg st)) ∧
    (∀ v, require_pg { st with envPgDsn := v } =
      ((require_pg st).1, { (require_pg st).2 with envPgDsn := v })) := by
  refine ⟨?_, ?_, ?_, ?_⟩
  · cases hd : optTruthy st.dsn <;> cases hrch : st.pgReachable <;>
      simp [require_pg, try_connect_pg, h, hd, hrch]
  · intro hd hrch
    simp [require_pg, try_connect_pg, h, hd, hrch]
  · intro hcase e pw salt
    have hreq : require_pg st =
        (Except.error (Exn.http 503 "PostgreSQL is not configured/available."),
         try_connect_pg st) := by
      rcases hcase with hd | hrch
      · simp [require_pg, try_connect_pg, h, hd]
      · cases hd : optTruthy st.dsn <;>
          simp [require_pg, try_connect_pg, h, hd, hrch]
    constructor
    · unfold register
      rw [hreq]
    · unfold login
      rw [hreq]
  · intro v
    cases hd : optTruthy st.dsn <;> cases hrch : st.pgReachable <;>
      simp [require_pg, try_connect_pg, h, hd, hrch]

/-- Witness for C5's amended theorem: the lazy reconnect succeeds once the
store is reachable under the startup-captured DSN. -/
theorem require_pg_lazy_reconnect_witness :
    stW5b.pgAvail = false ∧ optTruthy stW5b.dsn = true ∧
    stW5b.pgReachable = true ∧
    (require_pg stW5b).1 = Except.ok () ∧
    (require_pg stW5b).2.pgConnectAttempts = stW5b.pgConnectAttempts + 1 :=
  ⟨rfl, rfl, rfl, ((require_pg_lazy_reconnect stW5b rfl).2.1 rfl rfl).1,
   (require_pg_lazy_reconnect stW5b rfl).1⟩

/-- C6: a login with an email matching no stored user and a login with a
stored email but a non-matching password return the very same structured
result `{ok: false}` with no cookie — the two cases are indistinguishable
to the caller. -/
theorem login_unknown_vs_wrong_password (st : St) (e1 pw1 e2 pw2 : String)
    (u : UserRow)
    (hA : st.pgAvail = true) (hf : st.pgOpFault = false)
    (h1 : (st.db.users.find? fun x => x.email == strLower e1) = none)
    (h2 : (st.db.users.find? fun x => x.email == strLower e2) = some u)
    (h3 : bcrypt_checkpw pw2 u.password_hash = false) :
    (login st e1 pw1).1 = Except.ok { ok := false, cookie := none } ∧
    login st e1 pw1 = login st e2 pw2 := by
  have hreq : require_pg st = (Except.ok (), st) := by
    simp [require_pg, hA]
  unfold login
  rw [hreq]
  simp [loginBody, hf, h1, h2, h3]

/-- Witness for C6: unknown email "a@x.com" versus stored "b@x.com" with
a wrong password give identical results. -/
theorem login_unknown_vs_wrong_password_witness :
    stW6.pgAvail = true ∧ stW6.pgOpFault = false ∧
    (stW6.db.users.find? fun x => x.email == strLower "a@x.com") = none ∧
    (stW6.db.users.find? fun x => x.email == strLower "B@x.com") = some uW ∧
    bcrypt_checkpw "wrong" uW.password_hash = false ∧
    (login stW6 "a@x.com" "anything").1 = Except.ok { ok := false, cookie := none } ∧
    login stW6 "a@x.com" "anything" = login stW6 "B@x.com" "wrong" := by
  have h := login_unknown_vs_wrong_password stW6 "a@x.com" "anything" "B@x.com"
    "wrong" uW rfl rfl (by decide) (by decide) (by decide)
  exact ⟨rfl, rfl, by decide, by decide, by decide, h.1, h.2⟩

theorem any_eq_false_of_all_not {α : Type} (p : α → Bool) (l : List α)
    (h : (l.all fun a => !p a) = true) : l.any p = false := by
  induction l with
  | nil => rfl
  | cons x t ih =>
    simp only [List.all_cons, Bool.and_eq_true, Bool.not_eq_true'] at h
    simp only [List.any_cons, h.1, Bool.false_or]
    exact ih h.2

theorem find_skip_all_not {α : Type} (p : α → Bool) (l1 l2 : List α)
    (h : (l1.all fun a => !p a) = true) : (l1 ++ l2).find? p = l2.find? p := by
  induction l1 with
  | nil => rfl
  | cons x t ih =>
    simp only [List.all_cons, Bool.and_eq_true, Bool.not_eq_true'] at h
    rw [List.cons_append, List.find?_cons_of_neg _ (by simp [h.1]), ih h.2]

/-- C1: with the store available, no fault pending and the email not yet
taken, register followed by login with the same password and any
case-variant of the email (same lowercase form) yields `{ok: true}` with
a session cookie signing the new user's id; login with a wrong password
yields `{ok: false}` and no cookie. -/
theorem register_then_login_roundtrip (st : St) (e1 e2 pw pw' salt : String)
    (hA : st.pgAvail = true) (hf : st.pgOpFault = false)
    (hcase : strLower e2 = strLower e1)
    (hfree : (st.db.users.all fun u => !(u.email == strLower e1)) = true)
    (hwrong : pw' ≠ pw) :
    (register st e1 pw salt).1 = Except.ok { ok := true } ∧
    (login (register st e1 pw salt).2 e2 pw).1 =
      Except.ok { ok := true,
                  cookie := some { name := "access_token",
                                   value := jwt_encode st.db.nextId st.jwtSecret,
                                   httponly := true, samesite := "Lax",
                                   secure := st.secureCookies } } ∧
    (login (register st e1 pw salt).2 e2 pw').1 =
      Except.ok { ok := false, cookie := none } := by
  have hreq : require_pg st = (Except.ok (), st) := by
    simp [require_pg, hA]
  have hany : (st.db.users.any fun u => u.email == strLower e1) = false :=
    any_eq_false_of_all_not _ _ hfree
  have hreg : register st e1 pw salt =
      (Except.ok { ok := true },
       { st with db := { st.db with
           users := st.db.users ++
             [{ id := st.db.nextId, email := strLower e1,
                password_hash := bcrypt_hashpw pw salt }]
           nextId := st.db.nextId + 1 } }) := by
    unfold register
    rw [hreq]
    simp [registerBody, hf, hany]
  have hreq2 : require_pg (register st e1 pw salt).2 =
      (Except.ok (), (register st e1 pw salt).2) := by
    rw [hreg]
    simp [require_pg, hA]
  refine ⟨by rw [hreg], ?_, ?_⟩
  · unfold login
    rw [hreq2]
    simp only [loginBody]
    rw [hreg]
    simp [hf, hcase, find_skip_all_not _ _ _ hfree, List.find?,
      bcrypt_checkpw, bcrypt_hashpw]
  · unfold login
    rw [hreq2]
    simp only [loginBody]
    rw [hreg]
    simp [hf, hcase, find_skip_all_not _ _ _ hfree, List.find?,
      bcrypt_checkpw, bcrypt_hashpw, BcryptHash.mk.injEq, hwrong]

/-- Witness for C1: register "A@x.com" with password "hunter2", then log
in as "a@X.com". -/
theorem register_then_login_roundtrip_witness :
    stW2.pgAvail = true ∧ stW2.pgOpFault = false ∧
    strLower "a@X.com" = strLower "A@x.com" ∧
    (stW2.db.users.all fun u => !(u.email == strLower "A@x.com")) = true ∧
    ("wrong" : String) ≠ "hunter2" ∧
    (register stW2 "A@x.com" "hunter2" "s1").1 = Except.ok { ok := true } ∧
    (login (register stW2 "A@x.com" "hunter2" "s1").2 "a@X.com" "hunter2").1 =
      Except.ok { ok := true,
                  cookie := some { name := "access_token",
                                   value := jwt_encode stW2.db.nextId stW2.jwtSecret,
                                   httponly := true, samesite := "Lax",
                                   secure := stW2.secureCookies } } ∧
    (login (register stW2 "A@x.com" "hunter2" "s1").2 "a@X.com" "wrong").1 =
      Except.ok { ok := false, cookie := none } := by
  have h := register_then_login_roundtrip stW2 "A@x.com" "a@X.com" "hunter2"
    "wrong" "s1" rfl rfl (by decide) (by decide) (by decide)
  exact ⟨rfl, rfl, by decide, by decide, by decide, h.1, h.2.1, h.2.2⟩

/-- C9 counterexample: at `stC9b` (store flagged Unavailable but now
reachable, user table empty) a failing login returns `{ok: false}` yet
flips the store availability flag from Unavailable to Available and
creates the missing SiteCounter row — login does write to the
availability flags and the counter storage, through `require_pg`'s
reconnect. -/
theorem login_flips_availability :
    stC9b.pgAvail = false ∧
    (login stC9b "x@x.com" "pw").1 = Except.ok { ok := false, cookie := none } ∧
    (login stC9b "x@x.com" "pw").2.pgAvail = true ∧
    stC9b.db.siteCounter = none ∧
    (login stC9b "x@x.com" "pw").2.db.siteCounter =
      some { total := 0, updated_at := 3 } :=
  ⟨rfl, rfl, rfl, rfl, rfl⟩

/-- C9 amended: login sets the cookie only on the success path — whenever
the outcome carries a cookie the body is `{ok: true}` — and its only
state effect is `require_pg`'s reconnect: the user table, the cache and
the in-process counter are unchanged, and the SiteCounter row is either
unchanged or freshly created at zero; the availability flag may however
flip to Available. -/
theorem login_cookie_only_on_success (st : St) (e pw : String) :
    (login st e pw).2 = (require_pg st).2 ∧
    (require_pg st).2.db.users = st.db.users ∧
    (require_pg st).2.cache = st.cache ∧
    (require_pg st).2.mem = st.mem ∧
    ((require_pg st).2.db.siteCounter = st.db.siteCounter ∨
      (st.db.siteCounter = none ∧
       (require_pg st).2.db.siteCounter = some { total := 0, updated_at := st.now })) ∧
    (respCookie (login st e pw).1 = none ∨ respOk (login st e pw).1 = true) := by
  refine ⟨?_, ?_, ?_, ?_, ?_, ?_⟩
  · unfold login
    cases hq : (require_pg st).1 <;> simp [hq]
  · cases hA : st.pgAvail <;> cases hd : optTruthy st.dsn <;>
      cases hrch : st.pgReachable <;>
        simp [require_pg, try_connect_pg, hA, hd, hrch]
  · cases hA : st.pgAvail <;> cases hd : optTruthy st.dsn <;>
      cases hrch : st.pgReachable <;>
        simp [require_pg, try_connect_pg, hA, hd, hrch]
  · cases hA : st.pgAvail <;> cases hd : optTruthy st.dsn <;>
      cases hrch : st.pgReachable <;>
        simp [require_pg, try_connect_pg, hA, hd, hrch]
  · cases hA : st.pgAvail <;> cases hd : optTruthy st.dsn <;>
      cases hrch : st.pgReachable <;>
        cases hS : st.db.siteCounter <;>
          simp [require_pg, try_connect_pg, hA, hd, hrch, hS]
  · unfold login
    cases hq : (require_pg st).1 with
    | error ex => simp [hq, respCookie]
    | ok u =>
      simp only [hq]
      cases hfa : (require_pg st).2.pgOpFault with
      | true => simp [loginBody, hfa, respCookie]
      | false =>
        simp only [loginBody, hfa]
        rcases hfind : ((require_pg st).2.db.users.find? fun x =>
            x.email == strLower e) with _ | u2
        · simp [hfind, respCookie]
        · cases hck : bcrypt_checkpw pw u2.password_hash with
          | false => simp [hfind, hck, respCookie]
          | true => simp [hfind, hck, respCookie, respOk]
